import Mathlib

/-!
Verification of the Flask starter template `templates/python-flask/html/app.py`.

The program is a single-file web application: one route `/` bound to a handler
`index` that returns a fixed HTML string literal, and a conditional entry
point that resolves a port from the environment variable `PORT` (default 8000)
and starts the development server on host `0.0.0.0`.

The embedding below translates the file:
* `index_body` is the triple-quoted Python string literal, byte for byte;
* `index` is the handler (a function of no arguments whose body is a single
  `return` of the literal; Python functions may raise, so handler bodies are
  modelled in `Except`, and a plain `return` is `Except.ok`);
* `routes` is the author-registered routing table (`@app.route` on `/`);
* `dispatch` is the framework's table lookup producing a `Response`;
* `pyIntOfString` models Python's `int()` applied to a string;
* `resolvePort` models `int(os.environ.get("PORT", 8000))`;
* `bootstrap` models the body of the main guard, `app.run(host, port)`, with
  the server start abstracted as a fallible argument;
* `mainGuard` models the `if __name__ == "__main__"` conditional;
* `startupEnvOps` is the trace of environment-variable operations the
  program performs.
-/

set_option maxRecDepth 100000

/-- Python exceptions relevant to this program: `ValueError` raised by
`int()` on an unparsable string, and OSError-style failures raised by the
framework development server (for example, address already in use). -/
inductive PyError where
  | valueError (msg : String)
  | osError (msg : String)
deriving DecidableEq

/-- An incoming HTTP request, as seen by the framework before dispatch. The
handler in app.py reads none of these fields. -/
structure Request where
  method : String
  path : String
  headers : List (String × String)
  queryString : String

/-- An outgoing HTTP response: status code, mimetype (Flask adds the charset
parameter to the actual Content-Type header), and body. -/
structure Response where
  status : Nat
  mimetype : String
  body : String
deriving DecidableEq

/-- The HTML document literal returned by `index` in app.py, transcribed byte
for byte from the triple-quoted Python string: it begins with a newline and
four spaces of indentation (the characters following the opening quotes) and
ends with a newline and four spaces (the indentation before the closing
quotes). -/
def index_body : String := "
    <!DOCTYPE html>
    <html lang=\"en\">
    <head>
        <meta charset=\"UTF-8\">
        <meta name=\"viewport\" content=\"width=device-width, initial-scale=1.0\">
        <title>Flask App Template</title>
        <style>
            * \x7b margin: 0; padding: 0; box-sizing: border-box; \x7d
            body \x7b
                font-family: -apple-system, BlinkMacSystemFont, \x27Segoe UI\x27, Roboto, sans-serif;
                display: flex;
                justify-content: center;
                align-items: center;
                min-height: 100vh;
                background: linear-gradient(135deg, #3776ab 0%, #ffd43b 100%);
                color: white;
            \x7d
            .container \x7b
                text-align: center;
                padding: 2rem;
                background: rgba(0, 0, 0, 0.3);
                border-radius: 12px;
            \x7d
            h1 \x7b font-size: 2.5rem; margin-bottom: 1rem; \x7d
            p \x7b font-size: 1.1rem; opacity: 0.9; \x7d
            .status \x7b
                margin-top: 1.5rem;
                padding: 1rem;
                background: rgba(255, 255, 255, 0.1);
                border-radius: 8px;
            \x7d
            code \x7b background: rgba(0, 0, 0, 0.3); padding: 0.2rem 0.5rem; border-radius: 4px; \x7d
        </style>
    </head>
    <body>
        <div class=\"container\">
            <h1>Flask App Template</h1>
            <p>Your Flask application is running!</p>
            <div class=\"status\">
                <p>Replace this file with your own code in <code>html/app.py</code></p>
            </div>
        </div>
    </body>
    </html>
    "

/-- The handler `index` of app.py: a function of no arguments whose body is a
single `return` of the string literal. A `return` of a literal cannot raise,
so its embedding is `Except.ok` of the literal. -/
def index (_u : Unit) : Except PyError String := Except.ok index_body

/-- The author-registered routing table of app.py: the single decorator
`@app.route` binds the path `/` to `index`. (Flask additionally wires a
framework-internal static-file endpoint; that is framework machinery, not a
route registered by this file.) -/
def routes : List (String × (Unit → Except PyError String)) := [("/", index)]

/-- Body of the framework's default not-found page. Its exact text is
internal to the framework (Werkzeug's NotFound error page), not authored by
app.py; only the status code matters to the claims. -/
def notFoundBody : String := "<!doctype html>\n<html lang=en>\n<title>404 Not Found</title>\n<h1>Not Found</h1>\n<p>The requested URL was not found on the server. If you entered the URL manually please check your spelling and try again.</p>\n"

/-- The framework's default not-found response, returned when no registered
route matches the request path. -/
def defaultNotFound : Response :=
  { status := 404, mimetype := "text/html", body := notFoundBody }

/-- Body of the framework's default internal-server-error page, served when a
handler raises. Framework-internal text, not authored by app.py. -/
def internalErrorBody : String := "<!doctype html>\n<html lang=en>\n<title>500 Internal Server Error</title>\n<h1>Internal Server Error</h1>\n<p>The server encountered an internal error and was unable to complete your request.</p>\n"

/-- The framework's default internal-server-error response. -/
def internalError : Response :=
  { status := 500, mimetype := "text/html", body := internalErrorBody }

/-- Framework request dispatch over the routing table registered by app.py:
look the request path up in `routes`; a matching handler that returns a
string yields a 200 response with mimetype text/html (Flask's conversion of a
returned `str`); a matching handler that raises yields the framework 500
page; an unmatched path yields the framework's default not-found response.
HTTP-method handling (Flask's 405 for a non-GET method on a GET route) is
framework behaviour outside this file; the claims quantify over GET
requests. -/
def dispatch (req : Request) : Response :=
  match routes.find? (fun r => r.fst == req.path) with
  | some (_, h) =>
    match h () with
    | Except.ok b => { status := 200, mimetype := "text/html", body := b }
    | Except.error _ => internalError
  | none => defaultNotFound

/-- One digit run of a Python decimal int literal: nonempty decimal digits in
which a single underscore may separate two digits. Python accepts
`int("1_0")` but rejects a leading, trailing or doubled underscore. -/
def digitRun : List Char → Bool
  | [] => false
  | [c] => c.isDigit
  | c :: '_' :: rest => c.isDigit && digitRun rest
  | c :: rest => c.isDigit && digitRun rest

/-- Numeric value of a digit run, underscores skipped. -/
def digitsVal (cs : List Char) : Nat :=
  cs.foldl (fun a c => if c = '_' then a else 10 * a + (c.toNat - 48)) 0

/-- Python `int(s)` on a string: strip surrounding whitespace, allow one
leading sign, then require a digit run; any other input raises `ValueError`
(modelled as `none`). -/
def pyIntOfString (s : String) : Option Int :=
  let t := ((s.toList.dropWhile Char.isWhitespace).reverse.dropWhile Char.isWhitespace).reverse
  match t with
  | '+' :: rest => if digitRun rest then some ((digitsVal rest : Nat) : Int) else none
  | '-' :: rest => if digitRun rest then some (-((digitsVal rest : Nat) : Int)) else none
  | rest => if digitRun rest then some ((digitsVal rest : Nat) : Int) else none

/-- The port expression of app.py, `int(os.environ.get("PORT", 8000))`: when
`PORT` is unset, `os.environ.get` returns the default `8000`, already an int;
when `PORT` is set, its string value goes through `int()`, which raises
`ValueError` on an unparsable string. -/
def resolvePort (envPORT : Option String) : Except PyError Int :=
  match envPORT with
  | none => Except.ok 8000
  | some s =>
    match pyIntOfString s with
    | some n => Except.ok n
    | none =>
      Except.error (PyError.valueError ("invalid literal for int() with base 10: " ++ s))

/-- The body of the main guard: `app.run(host="0.0.0.0", port=...)` with the
port resolved from the environment. The server start itself is abstracted as
the fallible argument `run`. The guard body contains no try/except, so a
failure of either step propagates unchanged through `Except.bind`. -/
def bootstrap (run : String → Int → Except PyError Unit)
    (envPORT : Option String) : Except PyError Unit :=
  (resolvePort envPORT).bind (fun p => run "0.0.0.0" p)

/-- The conditional entry point `if __name__ == "__main__"`: the guard body
runs only when the module is executed as the main program; on import the
guard body is skipped and no server is started (`none`). -/
def mainGuard (isMain : Bool) (run : String → Int → Except PyError Unit)
    (envPORT : Option String) : Option (Except PyError Unit) :=
  if isMain then some (bootstrap run envPORT) else none

/-- An operation on the process environment. -/
inductive EnvOp where
  | read (key : String)
  | write (key : String) (value : String)

/-- The complete trace of environment-variable operations app.py performs, in
order: the single `os.environ.get("PORT", 8000)` read inside the main guard.
The file contains no write to `os.environ`. -/
def startupEnvOps : List EnvOp := [EnvOp.read "PORT"]

/-- Effect of one environment operation on an environment store: a read
leaves the store unchanged, a write updates one key. -/
def applyEnvOp (env : String → Option String) : EnvOp → (String → Option String)
  | EnvOp.read _ => env
  | EnvOp.write k v => fun q => if q = k then some v else env q

/-- Effect of a trace of environment operations on an environment store. -/
def applyEnvOps (ops : List EnvOp) (env : String → Option String) :
    String → Option String :=
  ops.foldl applyEnvOp env

/-- Whether an environment operation is a read of `PORT`. -/
def isPortRead : EnvOp → Bool
  | EnvOp.read k => k == "PORT"
  | EnvOp.write _ _ => false

/-- Whether an environment operation is a write. -/
def isEnvWrite : EnvOp → Bool
  | EnvOp.read _ => false
  | EnvOp.write _ _ => true

/-- Fixture: a plain GET request to `/`. -/
def reqRoot : Request :=
  { method := "GET", path := "/", headers := [], queryString := "" }

/-- Fixture: a GET request to `/` with an extra header and a query string. -/
def reqRootExtra : Request :=
  { method := "GET", path := "/", headers := [("X-Extra", "1")], queryString := "a=b" }

/-- Fixture: a GET request to a path with no registered route. -/
def reqAbout : Request :=
  { method := "GET", path := "/about", headers := [], queryString := "" }

/-- Helper: any request whose path is `/` dispatches to `index` and gets the
200 text/html response carrying the fixed literal. -/
theorem dispatch_root (req : Request) (hp : req.path = "/") :
    dispatch req = { status := 200, mimetype := "text/html", body := index_body } := by
  simp [dispatch, routes, hp, index]

/-- Helper: any request whose path is not `/` matches no registered route and
gets the framework's default not-found response. -/
theorem dispatch_not_root (req : Request) (hp : req.path ≠ "/") :
    dispatch req = defaultNotFound := by
  have hb : (("/" : String) == req.path) = false :=
    beq_eq_false_iff_ne.mpr (Ne.symm hp)
  simp [dispatch, routes, hb]

/-- C1: every GET request to `/` is answered with status 200, mimetype
text/html, and body exactly the fixed HTML literal of the source, which
contains the literal title text "Flask App Template". -/
theorem c1_get_root_returns_fixed_html (req : Request)
    (_hm : req.method = "GET") (hp : req.path = "/") :
    dispatch req = { status := 200, mimetype := "text/html", body := index_body }
      ∧ "Flask App Template".toList <:+: index_body.toList :=
  ⟨dispatch_root req hp, by decide⟩

/-- Witness for C1 at a concrete GET request to `/`. -/
theorem c1_witness :
    dispatch reqRoot = { status := 200, mimetype := "text/html", body := index_body }
      ∧ "Flask App Template".toList <:+: index_body.toList :=
  c1_get_root_returns_fixed_html reqRoot rfl rfl

/-- C2: any two requests routed to `/` — whatever their method, headers,
query string or body differences — receive byte-identical response bodies
(indeed identical responses): the handler reads no request data and no
mutable state. -/
theorem c2_response_body_constant (r1 r2 : Request)
    (h1 : r1.path = "/") (h2 : r2.path = "/") :
    (dispatch r1).body = (dispatch r2).body ∧ dispatch r1 = dispatch r2 := by
  have e : dispatch r1 = dispatch r2 :=
    (dispatch_root r1 h1).trans (dispatch_root r2 h2).symm
  exact ⟨congrArg Response.body e, e⟩

/-- Witness for C2 at two concrete requests differing in headers and query
string. -/
theorem c2_witness :
    (dispatch reqRoot).body = (dispatch reqRootExtra).body
      ∧ dispatch reqRoot = dispatch reqRootExtra :=
  c2_response_body_constant reqRoot reqRootExtra rfl rfl

/-- C3: run as the main program, the entry point starts the server on host
`0.0.0.0` with the resolved port: port 9999 when `PORT=9999`, port 8000 when
`PORT` is unset. -/
theorem c3_port_resolution (run : String → Int → Except PyError Unit) :
    mainGuard true run (some "9999") = some (run "0.0.0.0" 9999)
      ∧ mainGuard true run none = some (run "0.0.0.0" 8000) :=
  ⟨rfl, rfl⟩

/-- C4: when `PORT` is set to a string `int()` cannot parse, startup raises
the `ValueError` rather than silently falling back to 8000: the resolved port
is an error, never `ok`. -/
theorem c4_unparsable_port_raises (s : String) (h : pyIntOfString s = none) :
    resolvePort (some s)
        = Except.error
            (PyError.valueError ("invalid literal for int() with base 10: " ++ s))
      ∧ ∀ p, resolvePort (some s) ≠ Except.ok p := by
  refine ⟨by simp [resolvePort, h], ?_⟩
  intro p hc
  rw [resolvePort, h] at hc
  exact Except.noConfusion hc

/-- Witness for C4 at the concrete unparsable value "abc". -/
theorem c4_witness :
    pyIntOfString "abc" = none
      ∧ (resolvePort (some "abc")
          = Except.error
              (PyError.valueError ("invalid literal for int() with base 10: " ++ "abc"))
        ∧ ∀ p, resolvePort (some "abc") ≠ Except.ok p) :=
  ⟨by decide, c4_unparsable_port_raises "abc" (by decide)⟩

/-- C5: the author-registered routing table has exactly one route, for `/`;
every request to any other path matches no registered handler and receives
the framework's default not-found response. -/
theorem c5_single_route (req : Request) (hp : req.path ≠ "/") :
    routes.length = 1 ∧ routes.map Prod.fst = ["/"]
      ∧ dispatch req = defaultNotFound :=
  ⟨rfl, rfl, dispatch_not_root req hp⟩

/-- Witness for C5 at a concrete request to a path other than `/`. -/
theorem c5_witness :
    routes.length = 1 ∧ routes.map Prod.fst = ["/"]
      ∧ dispatch reqAbout = defaultNotFound :=
  c5_single_route reqAbout (by decide)

/-- C6: the trace of environment operations the program performs reads `PORT`
exactly once and contains no write, so the environment store is unchanged by
running the program and the resolved port is a pure function of the initial
environment. -/
theorem c6_port_read_once_never_written :
    (∀ env : String → Option String, applyEnvOps startupEnvOps env = env)
      ∧ startupEnvOps.countP isPortRead = 1
      ∧ startupEnvOps.countP isEnvWrite = 0 :=
  ⟨fun _ => rfl, rfl, rfl⟩

/-- C7: every startup failure propagates unchanged: a `ValueError` from port
resolution, or any error the server start raises, is the exact error the
entry point produces — nothing is caught, retried or translated. -/
theorem c7_errors_propagate_unchanged
    (run : String → Int → Except PyError Unit) (env : Option String) :
    (∀ e, resolvePort env = Except.error e → bootstrap run env = Except.error e)
      ∧ (∀ p e, resolvePort env = Except.ok p → run "0.0.0.0" p = Except.error e →
          bootstrap run env = Except.error e) := by
  constructor
  · intro e h
    simp [bootstrap, h, Except.bind]
  · intro p e h1 h2
    simp [bootstrap, h1, Except.bind, h2]

/-- Witness for C7: a concrete unparsable `PORT` propagates the `ValueError`,
and a concrete server-start failure on a valid port propagates as is. -/
theorem c7_witness :
    bootstrap (fun _ _ => Except.error (PyError.osError "Address already in use"))
        (some "abc")
      = Except.error
          (PyError.valueError ("invalid literal for int() with base 10: " ++ "abc"))
    ∧ bootstrap (fun _ _ => Except.error (PyError.osError "Address already in use"))
        (some "80")
      = Except.error (PyError.osError "Address already in use") :=
  ⟨(c7_errors_propagate_unchanged
      (fun _ _ => Except.error (PyError.osError "Address already in use"))
      (some "abc")).1 _ rfl,
   (c7_errors_propagate_unchanged
      (fun _ _ => Except.error (PyError.osError "Address already in use"))
      (some "80")).2 80 _ rfl rfl⟩

/-- C8: the development server is started if and only if the module runs as
the main program; importing the module leaves the route registered but starts
nothing. -/
theorem c8_entry_point_conditional (isMain : Bool)
    (run : String → Int → Except PyError Unit) (env : Option String) :
    (mainGuard isMain run env).isSome = isMain
      ∧ mainGuard false run env = none
      ∧ mainGuard true run env = some (bootstrap run env)
      ∧ routes.map Prod.fst = ["/"] := by
  refine ⟨?_, rfl, rfl, rfl⟩
  cases isMain <;> rfl

/-- C9: the handler is total and never raises — its embedding returns
`Except.ok` of the literal on every invocation, so the framework's 500 branch
is unreachable and every dispatched response is a 200 or the 404 default. -/
theorem c9_handler_never_raises :
    (∀ u : Unit, index u = Except.ok index_body)
      ∧ ∀ req : Request, (dispatch req).status = 200 ∨ (dispatch req).status = 404 := by
  refine ⟨fun _ => rfl, fun req => ?_⟩
  by_cases hp : req.path = "/"
  · left
    rw [dispatch_root req hp]
  · right
    rw [dispatch_not_root req hp]
    rfl

/-- C10: the response body is the HTML document surrounded by whitespace, not
the bare document: it does not begin with "<!DOCTYPE", it begins with a
newline and four spaces before "<!DOCTYPE html>", and it ends with a newline
and four spaces. -/
theorem c10_body_surrounded_by_whitespace :
    ¬ ("<!DOCTYPE".toList <+: index_body.toList)
      ∧ ("\n    <!DOCTYPE html>".toList <+: index_body.toList)
      ∧ ("\n    ".toList <:+ index_body.toList) :=
  ⟨by decide, by decide, by decide⟩
